import Mathlib

/-!
Shallow embedding of the payment backend's reconciliation core
(src/routes/stripeWebhook.js and src/routes/payments.js).

Modelling conventions:
* Firestore documents are association lists keyed by document id; `update`
  rewrites an existing document and is a no-op on a missing one (a Firestore
  `update` on a missing document throws, and every such call site either has
  already checked existence or catches the error and moves on).
* JavaScript truthiness on strings is `strPresent` (absent or empty means
  falsy); on numbers, `!amount || amount <= 0` is `invalidAmount`.
* Stripe metadata values are strings; `walletAmount` is stored via
  `toString()` and read back via `Number(...)`, so it is modelled directly by
  its numeric value (`Option Int`, defaulting to 0 when absent).
* `serverTimestamp()` / `new Date().toISOString()` fields (`updatedAt`,
  `paidAt`, `createdAt`, transaction `timestamp`) are not represented: they
  carry wall-clock values with no bearing on the verified properties.
* External Stripe calls are represented by an oracle `StripeEnv` supplying
  the objects Stripe would return, and routes that must provably avoid an
  external request also return the list of `ExtCall`s they issued.
-/

/-- JSON values appearing in the route responses. -/
inductive JVal
  | jnull
  | jbool (b : Bool)
  | jnum (n : Int)
  | jstr (s : String)
deriving DecidableEq

/-- An Express response: `res.status(n).send(string)` or `res.status(n).json(object)`
(`res.json` alone is status 200). A JSON object is its ordered field list. -/
inductive Response
  | send (status : Nat) (body : String)
  | json (status : Nat) (body : List (String × JVal))
deriving DecidableEq

/-- Whether a JSON response body carries a field of the given name. -/
def Response.hasField : Response → String → Bool
  | .json _ body, k => body.any (fun p => p.1 = k)
  | .send _ _, _ => false

/-- JavaScript truthiness for an optional string: `undefined` and `""` are falsy. -/
def strPresent : Option String → Bool
  | none => false
  | some s => !s.isEmpty

/-- `!amount || amount <= 0` for an optional JS number. -/
def invalidAmount : Option Int → Bool
  | none => true
  | some v => v ≤ 0

/-- `x || d` on an optional string (empty string also falls through to `d`). -/
def strOrDefault (s : Option String) (d : String) : String :=
  match s with
  | none => d
  | some m => if m = "" then d else m

/-- A saved card summary (`createdAt` timestamp omitted, see header). -/
structure Card where
  id : String
  brand : String
  last4 : String
  expMonth : Int
  expYear : Int
deriving DecidableEq

/-- A wallet transaction record embedded in the user document
(`timestamp` omitted, see header). -/
structure WalletTx where
  txType : String
  amount : Int
  previousBalance : Int
  newBalance : Int
  txStatus : String
  description : String
  stripePaymentIntentId : String
  stripeChargeId : Option String
  paymentMethod : String
  saveCard : Bool
deriving DecidableEq

/-- A user document. `Option` fields may be absent in Firestore. -/
structure User where
  email : Option String
  stripeCustomerId : Option String
  walletBalance : Option Int
  savedCards : List Card
  defaultPaymentMethod : Option String
  walletTransactions : List WalletTx
  orderHistory : List String
deriving DecidableEq

/-- An order document (only the fields this core reads or writes). -/
structure Order where
  paymentStatus : String
  orderStatus : String
  verified : Bool
  currency : Option String
  stripePaymentIntentId : Option String
  stripeChargeId : Option String
  paymentError : Option String
deriving DecidableEq

/-- The Firestore database: `users` and `orders` collections. -/
structure DB where
  users : List (String × User)
  orders : List (String × Order)
deriving DecidableEq

/-- Look a document up by id (first match). -/
def alist.lookup {α : Type} (l : List (String × α)) (k : String) : Option α :=
  match l with
  | [] => none
  | (k', v) :: t => if k' = k then some v else alist.lookup t k

/-- Overwrite the document stored under `k` (first occurrence, as `lookup`
reads it); no-op when `k` is absent. -/
def alist.update {α : Type} (l : List (String × α)) (k : String) (v : α) :
    List (String × α) :=
  match l with
  | [] => []
  | (k', v') :: t =>
    if k' = k then (k, v) :: t else (k', v') :: alist.update t k v

/-- Rewrite the document stored under `k` through `f`; no-op when `k` is absent. -/
def alist.adjust {α : Type} (l : List (String × α)) (k : String) (f : α → α) :
    List (String × α) :=
  match l with
  | [] => []
  | (k', v') :: t =>
    if k' = k then (k, f v') :: t else (k', v') :: alist.adjust t k f

/-- `FieldValue.arrayUnion(x)`: append `x` unless an equal element is present. -/
def arrayUnion {α : Type} [DecidableEq α] (l : List α) (x : α) : List α :=
  if x ∈ l then l else l ++ [x]

/-- `userRef.update(...)` — rewrite the user document through `f` if it exists. -/
def applyUser (st : DB) (uid : String) (f : User → User) : DB :=
  { st with users := alist.adjust st.users uid f }

/-- `orderRef.update(...)` — rewrite the order document through `f` if it exists. -/
def applyOrder (st : DB) (oid : String) (f : Order → Order) : DB :=
  { st with orders := alist.adjust st.orders oid f }

/-- The metadata bag of a payment intent (`paymentIntent.metadata || {}`). -/
structure Metadata where
  orderId : Option String
  userId : Option String
  walletAmount : Option Int
deriving DecidableEq

/-- A Stripe payment intent as seen by the webhook handlers. -/
structure PIntent where
  id : String
  metadata : Metadata
  latestCharge : Option String
  lastPaymentErrorMessage : Option String
deriving DecidableEq

/-- `handlePaymentSuccess` from src/routes/stripeWebhook.js. -/
def handlePaymentSuccess (pi : PIntent) (st : DB) : DB :=
  let md := pi.metadata
  if !strPresent md.orderId || !strPresent md.userId then st
  else
    let oid := md.orderId.getD ""
    let uid := md.userId.getD ""
    match alist.lookup st.orders oid, alist.lookup st.users uid with
    | some order, some user =>
      if order.paymentStatus = "paid" then st
      else
        let walletAmountNum := md.walletAmount.getD 0
        let st1 :=
          if walletAmountNum > 0 then
            let currentBalance := user.walletBalance.getD 0
            let newBalance := currentBalance - walletAmountNum
            if newBalance ≥ 0 then
              applyUser st uid (fun u => { u with walletBalance := some newBalance })
            else st
          else st
        let st2 := applyOrder st1 oid (fun o =>
          { o with
            paymentStatus := "paid"
            orderStatus := "confirmed"
            verified := true
            currency := some "GBP"
            stripePaymentIntentId := some pi.id
            stripeChargeId := pi.latestCharge })
        applyUser st2 uid (fun u =>
          { u with orderHistory := arrayUnion u.orderHistory oid })
    | _, _ => st

/-- `handlePaymentFailure` from src/routes/stripeWebhook.js. -/
def handlePaymentFailure (pi : PIntent) (st : DB) : DB :=
  let md := pi.metadata
  if strPresent md.orderId && strPresent md.userId then
    applyOrder st (md.orderId.getD "") (fun o =>
      { o with
        paymentStatus := "failed"
        paymentError := some (strOrDefault pi.lastPaymentErrorMessage "Payment failed") })
  else st

/-- A Stripe setup intent as seen by `handleSetupIntentSuccess`. -/
structure SetupIntent where
  customer : Option String
  paymentMethodId : Option String
deriving DecidableEq

/-- Card details of a payment method returned by `stripe.paymentMethods.retrieve`. -/
structure PMInfo where
  brand : String
  last4 : String
  expMonth : Int
  expYear : Int
deriving DecidableEq

/-- The payment intent object returned by `stripe.paymentIntents.create`. -/
structure CreatedPI where
  id : String
  clientSecret : Option String
  status : String
  latestCharge : Option String
  paymentMethod : Option String
deriving DecidableEq

/-- Oracle for the external Stripe API: the objects its calls would return. -/
structure StripeEnv where
  newCustomerId : String
  createdPI : CreatedPI
  retrievedPM : String → PMInfo

/-- An external Stripe request issued by a route. -/
inductive ExtCall
  | customersCreate (email : String)
  | paymentMethodsAttach (paymentMethodId customerId : String)
  | paymentIntentsCreate (amount : Int)
  | paymentMethodsDetach (paymentMethodId : String)
  | paymentMethodsRetrieve (paymentMethodId : String)
deriving DecidableEq

/-- Whether an external call is a payment-intent creation request. -/
def ExtCall.isIntentCreate : ExtCall → Bool
  | .paymentIntentsCreate _ => true
  | _ => false

/-- `handleSetupIntentSuccess` from src/routes/stripeWebhook.js: find the user
whose `stripeCustomerId` matches and append the card summary. -/
def handleSetupIntentSuccess (env : StripeEnv) (si : SetupIntent) (st : DB) : DB :=
  if !strPresent si.customer || !strPresent si.paymentMethodId then st
  else
    let pmId := si.paymentMethodId.getD ""
    let pm := env.retrievedPM pmId
    match st.users.find? (fun p => p.2.stripeCustomerId == si.customer) with
    | none => st
    | some (uid, _) =>
      let cardData : Card :=
        { id := pmId, brand := pm.brand, last4 := pm.last4
          expMonth := pm.expMonth, expYear := pm.expYear }
      applyUser st uid (fun u =>
        { u with savedCards := arrayUnion u.savedCards cardData })

/-- A verified webhook event: `type` discriminator plus `data.object`. -/
inductive StripeEvent
  | paymentIntentSucceeded (pi : PIntent)
  | paymentIntentFailed (pi : PIntent)
  | setupIntentSucceeded (si : SetupIntent)
  | otherEvent (eventType : String)
deriving DecidableEq

/-- The webhook endpoint of src/routes/stripeWebhook.js. `verifyResult` is the
outcome of `stripe.webhooks.constructEvent` on the raw body, signature header
and signing secret (an external verifier): `Except.error msg` when it throws. -/
def stripeWebhookRoute (env : StripeEnv) (verifyResult : Except String StripeEvent)
    (st : DB) : Response × DB :=
  match verifyResult with
  | .error msg => (.send 400 ("Webhook Error: " ++ msg), st)
  | .ok ev =>
    let st' :=
      match ev with
      | .paymentIntentSucceeded pi => handlePaymentSuccess pi st
      | .paymentIntentFailed pi => handlePaymentFailure pi st
      | .setupIntentSucceeded si => handleSetupIntentSuccess env si st
      | .otherEvent _ => st
    (.json 200 [("received", .jbool true)], st')

/-- `getOrCreateCustomer` from src/routes/payments.js. Returns the customer id,
the updated database, and the external calls issued. A `set` with merge
creates the user document when it is missing. -/
def getOrCreateCustomer (env : StripeEnv) (userId : String) (email : Option String)
    (st : DB) : String × DB × List ExtCall :=
  match alist.lookup st.users userId with
  | some u =>
    if strPresent u.stripeCustomerId then (u.stripeCustomerId.getD "", st, [])
    else
      let em := strOrDefault email ("user_" ++ userId ++ "@example.com")
      let u' := { u with stripeCustomerId := some env.newCustomerId }
      (env.newCustomerId, { st with users := alist.update st.users userId u' },
       [.customersCreate em])
  | none =>
    let em := strOrDefault email ("user_" ++ userId ++ "@example.com")
    let u' : User :=
      { email := none, stripeCustomerId := some env.newCustomerId,
        walletBalance := none, savedCards := [], defaultPaymentMethod := none,
        walletTransactions := [], orderHistory := [] }
    (env.newCustomerId, { st with users := st.users ++ [(userId, u')] },
     [.customersCreate em])

/-- Request body of `POST /create-payment-intent`. -/
structure CreatePIRequest where
  amount : Option Int
  orderId : Option String
  userId : Option String
  paymentMethodId : Option String
  walletAmount : Option Int
  currency : Option String
deriving DecidableEq

/-- `router.post("/create-payment-intent")` from src/routes/payments.js.
Returns the response, the resulting database, and the external calls issued. -/
def createPaymentIntentRoute (env : StripeEnv) (req : CreatePIRequest) (st : DB) :
    Response × DB × List ExtCall :=
  if invalidAmount req.amount then
    (.json 400 [("error", .jstr "Invalid amount")], st, [])
  else if !strPresent req.orderId || !strPresent req.userId then
    (.json 400 [("error", .jstr "Missing required fields")], st, [])
  else
    let userId := req.userId.getD ""
    match alist.lookup st.users userId with
    | none => (.json 404 [("error", .jstr "User not found")], st, [])
    | some userData =>
      let (customerId, st1, calls1) := getOrCreateCustomer env userId userData.email st
      let amount := req.amount.getD 0
      let walletAmount := req.walletAmount.getD 0
      let stripeAmount := amount - walletAmount
      if stripeAmount ≤ 0 then
        (.json 200 [("clientSecret", .jnull), ("paymentIntentId", .jnull),
                    ("walletOnly", .jbool true)], st1, calls1)
      else
        let attachCalls :=
          if strPresent req.paymentMethodId then
            [ExtCall.paymentMethodsAttach (req.paymentMethodId.getD "") customerId]
          else []
        let pi := env.createdPI
        (.json 200
          [("clientSecret", match pi.clientSecret with
            | some s => .jstr s
            | none => .jnull),
           ("paymentIntentId", .jstr pi.id),
           ("walletOnly", .jbool false),
           ("status", .jstr pi.status),
           ("requiresConfirmation", .jbool
             (pi.status = "requires_confirmation" || pi.status = "requires_payment_method"))],
         st1, calls1 ++ attachCalls ++ [.paymentIntentsCreate stripeAmount])

/-- Request body of `POST /add-money-to-wallet` (`saveCard` defaults to false). -/
structure AddMoneyRequest where
  amount : Option Int
  userId : Option String
  paymentMethodId : Option String
  saveCard : Bool
  currency : Option String
deriving DecidableEq

/-- `router.post("/add-money-to-wallet")` from src/routes/payments.js. -/
def addMoneyToWalletRoute (env : StripeEnv) (req : AddMoneyRequest) (st : DB) :
    Response × DB :=
  if invalidAmount req.amount then
    (.json 400 [("error", .jstr "Invalid amount")], st)
  else if !strPresent req.userId then
    (.json 400 [("error", .jstr "Missing user ID")], st)
  else
    let userId := req.userId.getD ""
    match alist.lookup st.users userId with
    | none => (.json 404 [("error", .jstr "User not found")], st)
    | some userData =>
      let (_, st1, _) := getOrCreateCustomer env userId userData.email st
      let amount := req.amount.getD 0
      let pi := env.createdPI
      if pi.status = "requires_action" || pi.status = "requires_payment_method" then
        (.json 200
          [("requiresConfirmation", .jbool true),
           ("clientSecret", match pi.clientSecret with
            | some s => .jstr s
            | none => .jnull),
           ("paymentIntentId", .jstr pi.id),
           ("status", .jstr pi.status)], st1)
      else
        let st2 :=
          if pi.status = "succeeded" then
            let currentBalance := userData.walletBalance.getD 0
            let newBalance := currentBalance + amount
            let tx : WalletTx :=
              { txType := "deposit", amount := amount
                previousBalance := currentBalance, newBalance := newBalance
                txStatus := "completed", description := "Wallet top-up via card"
                stripePaymentIntentId := pi.id, stripeChargeId := pi.latestCharge
                paymentMethod := if strPresent req.paymentMethodId then "saved_card" else "new_card"
                saveCard := req.saveCard }
            let stA := applyUser st1 userId (fun u =>
              { u with
                walletBalance := some newBalance
                walletTransactions := arrayUnion u.walletTransactions tx })
            if req.saveCard && !strPresent req.paymentMethodId
                && strPresent pi.paymentMethod then
              let pmId := pi.paymentMethod.getD ""
              let pm := env.retrievedPM pmId
              let cardData : Card :=
                { id := pmId, brand := pm.brand, last4 := pm.last4
                  expMonth := pm.expMonth, expYear := pm.expYear }
              applyUser stA userId (fun u =>
                { u with savedCards := arrayUnion u.savedCards cardData })
            else stA
          else st1
        (.json 200
          [("success", .jbool true),
           ("paymentIntentId", .jstr pi.id),
           ("status", .jstr pi.status),
           ("requiresConfirmation", .jbool false),
           ("amountAdded", .jnum amount),
           ("newBalance", .jnum (userData.walletBalance.getD 0 + amount))], st2)

/-- `router.delete("/card/:paymentMethodId")` from src/routes/payments.js. -/
def removeCardRoute (paymentMethodId : Option String) (userId : Option String)
    (st : DB) : Response × DB × List ExtCall :=
  if !strPresent paymentMethodId || !strPresent userId then
    (.json 400 [("error", .jstr "Missing required data")], st, [])
  else
    let pmId := paymentMethodId.getD ""
    let uid := userId.getD ""
    let okResp : Response :=
      .json 200 [("success", .jbool true), ("message", .jstr "Card removed successfully")]
    match alist.lookup st.users uid with
    | some userData =>
      let updatedCards := userData.savedCards.filter (fun card => card.id != pmId)
      let st' := applyUser st uid (fun u =>
        { u with
          savedCards := updatedCards
          defaultPaymentMethod :=
            if userData.defaultPaymentMethod = some pmId then none
            else userData.defaultPaymentMethod })
      (okResp, st', [.paymentMethodsDetach pmId])
    | none => (okResp, st, [.paymentMethodsDetach pmId])

/-! ### Concrete fixtures used by the witness theorems -/

def emptyUser : User :=
  { email := none, stripeCustomerId := none, walletBalance := none, savedCards := [],
    defaultPaymentMethod := none, walletTransactions := [], orderHistory := [] }

def orderUnpaid : Order :=
  { paymentStatus := "unpaid", orderStatus := "pending", verified := false,
    currency := none, stripePaymentIntentId := none, stripeChargeId := none,
    paymentError := none }

def orderPaid : Order := { orderUnpaid with paymentStatus := "paid" }

def cardA : Card := { id := "pm_1", brand := "visa", last4 := "4242", expMonth := 1, expYear := 2030 }

def cardB : Card := { id := "pm_2", brand := "mastercard", last4 := "4444", expMonth := 6, expYear := 2031 }

def userLow : User := { emptyUser with walletBalance := some 100 }

def userWithCards : User :=
  { emptyUser with savedCards := [cardA, cardB], defaultPaymentMethod := some "pm_1" }

def dbMain : DB :=
  { users := [("u1", userLow), ("u2", userWithCards)]
    orders := [("o1", orderUnpaid), ("o2", orderPaid)] }

def piSuccess : PIntent :=
  { id := "pi_1",
    metadata := { orderId := some "o1", userId := some "u1", walletAmount := some 400 },
    latestCharge := some "ch_1", lastPaymentErrorMessage := none }

def piNoMeta : PIntent :=
  { id := "pi_2",
    metadata := { orderId := none, userId := none, walletAmount := none },
    latestCharge := none, lastPaymentErrorMessage := none }

def piFailPaid : PIntent :=
  { id := "pi_3",
    metadata := { orderId := some "o2", userId := some "u1", walletAmount := none },
    latestCharge := none, lastPaymentErrorMessage := some "Your card was declined" }

def pmVisa : PMInfo := { brand := "visa", last4 := "4242", expMonth := 1, expYear := 2030 }

def envSucceeded : StripeEnv :=
  { newCustomerId := "cus_1",
    createdPI :=
      { id := "pi_9", clientSecret := some "cs_9", status := "succeeded",
        latestCharge := some "ch_9", paymentMethod := some "pm_9" },
    retrievedPM := fun _ => pmVisa }

def envProcessing : StripeEnv :=
  { envSucceeded with createdPI := { envSucceeded.createdPI with status := "processing" } }

/-! ### Association-list and document-update lemmas -/

theorem alist.lookup_update_self {α : Type} (l : List (String × α)) (k : String) (v : α) :
    alist.lookup (alist.update l k v) k = (alist.lookup l k).map (fun _ => v) := by
  induction l with
  | nil => rfl
  | cons p t ih =>
    obtain ⟨k', v'⟩ := p
    by_cases h : k' = k
    · subst h
      simp [alist.update, alist.lookup]
    · simp [alist.update, alist.lookup, h, ih]

theorem alist.lookup_update_ne {α : Type} (l : List (String × α)) (k k' : String)
    (v : α) (h : k ≠ k') :
    alist.lookup (alist.update l k v) k' = alist.lookup l k' := by
  induction l with
  | nil => rfl
  | cons p t ih =>
    obtain ⟨k'', v''⟩ := p
    by_cases hk : k'' = k
    · subst hk
      simp [alist.update, alist.lookup, h, ih]
    · simp [alist.update, alist.lookup, hk, ih]

theorem alist.update_update_self {α : Type} (l : List (String × α)) (k : String)
    (v w : α) :
    alist.update (alist.update l k v) k w = alist.update l k w := by
  induction l with
  | nil => rfl
  | cons p t ih =>
    obtain ⟨k', v'⟩ := p
    by_cases h : k' = k
    · subst h
      simp [alist.update]
    · simp [alist.update, h, ih]

theorem alist.lookup_adjust_self {α : Type} (l : List (String × α)) (k : String)
    (f : α → α) :
    alist.lookup (alist.adjust l k f) k = (alist.lookup l k).map f := by
  induction l with
  | nil => rfl
  | cons p t ih =>
    obtain ⟨k', v'⟩ := p
    by_cases h : k' = k
    · subst h
      simp [alist.adjust, alist.lookup]
    · simp [alist.adjust, alist.lookup, h, ih]

theorem alist.lookup_adjust_ne {α : Type} (l : List (String × α)) (k k' : String)
    (f : α → α) (h : k ≠ k') :
    alist.lookup (alist.adjust l k f) k' = alist.lookup l k' := by
  induction l with
  | nil => rfl
  | cons p t ih =>
    obtain ⟨k'', v''⟩ := p
    by_cases hk : k'' = k
    · subst hk
      simp [alist.adjust, alist.lookup, h, ih]
    · simp [alist.adjust, alist.lookup, hk, ih]

theorem alist.adjust_present {α : Type} (l : List (String × α)) (k : String)
    (f : α → α) (v : α) (h : alist.lookup l k = some v) :
    alist.adjust l k f = alist.update l k (f v) := by
  induction l with
  | nil => rfl
  | cons p t ih =>
    obtain ⟨k', v'⟩ := p
    by_cases hk : k' = k
    · subst hk
      simp [alist.lookup] at h
      subst h
      simp [alist.adjust, alist.update]
    · simp [alist.lookup, hk] at h
      simp [alist.adjust, alist.update, hk, ih h]

theorem applyUser_orders (st : DB) (uid : String) (f : User → User) :
    (applyUser st uid f).orders = st.orders := rfl

theorem applyOrder_users (st : DB) (oid : String) (f : Order → Order) :
    (applyOrder st oid f).users = st.users := rfl

theorem lookup_applyUser_self (st : DB) (uid : String) (f : User → User) :
    alist.lookup (applyUser st uid f).users uid = (alist.lookup st.users uid).map f :=
  alist.lookup_adjust_self st.users uid f

theorem lookup_applyOrder_self (st : DB) (oid : String) (f : Order → Order) :
    alist.lookup (applyOrder st oid f).orders oid =
      (alist.lookup st.orders oid).map f :=
  alist.lookup_adjust_self st.orders oid f

/-! ### Characterization of the success handler's transition -/

/-- The order document written by `handlePaymentSuccess` when it finalizes. -/
def hpsFinalOrder (pi : PIntent) (o : Order) : Order :=
  { o with
    paymentStatus := "paid"
    orderStatus := "confirmed"
    verified := true
    currency := some "GBP"
    stripePaymentIntentId := some pi.id
    stripeChargeId := pi.latestCharge }

/-- The user document after `handlePaymentSuccess` finalizes: wallet deducted
only when `walletAmount > 0` and the deduction stays non-negative, then the
order id array-unioned onto the order history. -/
def hpsFinalUser (pi : PIntent) (oid : String) (u : User) : User :=
  let wa := pi.metadata.walletAmount.getD 0
  let bal := u.walletBalance.getD 0
  let u1 := if wa > 0 ∧ bal - wa ≥ 0 then { u with walletBalance := some (bal - wa) } else u
  { u1 with orderHistory := arrayUnion u1.orderHistory oid }

theorem hps_falsy (pi : PIntent) (st : DB)
    (h : strPresent pi.metadata.orderId = false ∨ strPresent pi.metadata.userId = false) :
    handlePaymentSuccess pi st = st := by
  unfold handlePaymentSuccess
  dsimp only
  rcases h with h | h <;> simp [h]

theorem hps_noOrder (pi : PIntent) (st : DB)
    (h : alist.lookup st.orders (pi.metadata.orderId.getD "") = none) :
    handlePaymentSuccess pi st = st := by
  unfold handlePaymentSuccess
  dsimp only
  split
  · rfl
  · rw [h]

theorem hps_noUser (pi : PIntent) (st : DB)
    (h : alist.lookup st.users (pi.metadata.userId.getD "") = none) :
    handlePaymentSuccess pi st = st := by
  unfold handlePaymentSuccess
  dsimp only
  split
  · rfl
  · rw [h]
    cases alist.lookup st.orders (pi.metadata.orderId.getD "") <;> rfl

theorem hps_alreadyPaid (pi : PIntent) (st : DB) (order : Order)
    (hord : alist.lookup st.orders (pi.metadata.orderId.getD "") = some order)
    (hp : order.paymentStatus = "paid") :
    handlePaymentSuccess pi st = st := by
  unfold handlePaymentSuccess
  dsimp only
  split
  · rfl
  · rw [hord]
    cases alist.lookup st.users (pi.metadata.userId.getD "") with
    | none => rfl
    | some u => simp [hp]

theorem hps_transition (pi : PIntent) (st : DB) (oid uid : String)
    (order : Order) (user : User)
    (ho : pi.metadata.orderId = some oid) (ho' : oid ≠ "")
    (hu : pi.metadata.userId = some uid) (hu' : uid ≠ "")
    (hord : alist.lookup st.orders oid = some order)
    (husr : alist.lookup st.users uid = some user)
    (hnp : order.paymentStatus ≠ "paid") :
    handlePaymentSuccess pi st =
      { users := alist.update st.users uid (hpsFinalUser pi oid user)
        orders := alist.update st.orders oid (hpsFinalOrder pi order) } := by
  unfold handlePaymentSuccess
  dsimp only
  rw [ho, hu]
  simp only [strPresent, Option.getD_some]
  rw [if_neg]
  · simp only [hord, husr]
    rw [if_neg hnp]
    unfold applyUser applyOrder
    by_cases hwa : pi.metadata.walletAmount.getD 0 > 0
    · by_cases hnb : user.walletBalance.getD 0 - pi.metadata.walletAmount.getD 0 ≥ 0
      · rw [if_pos hwa, if_pos hnb]
        dsimp only
        rw [alist.adjust_present st.users uid _ user husr]
        rw [alist.adjust_present _ oid _ order (by simpa using hord)]
        rw [alist.adjust_present _ uid _ _
          (by simpa [husr] using alist.lookup_update_self st.users uid _)]
        rw [alist.update_update_self]
        simp [hpsFinalUser, hpsFinalOrder, hwa, hnb]
      · rw [if_pos hwa, if_neg hnb]
        dsimp only
        rw [alist.adjust_present st.orders oid _ order hord]
        rw [alist.adjust_present _ uid _ user husr]
        simp [hpsFinalUser, hpsFinalOrder, hwa, hnb]
    · rw [if_neg hwa]
      dsimp only
      rw [alist.adjust_present st.orders oid _ order hord]
      rw [alist.adjust_present _ uid _ user husr]
      simp [hpsFinalUser, hpsFinalOrder, hwa]
  · simp [String.isEmpty_iff, ho', hu']

theorem isEmpty_false_of_ne {s : String} (h : s ≠ "") : s.isEmpty = false := by
  rw [Bool.eq_false_iff]
  intro hc
  exact h ((String.isEmpty_iff s).mp hc)

theorem ne_empty_of_strPresent {s : String} (h : strPresent (some s) = true) : s ≠ "" := by
  intro hc
  subst hc
  exact absurd h (by decide)

/-! ### Claim theorems -/

/-- C1: Sequentially processing the same `payment_intent.succeeded` event a
second time applies no further mutation: `handlePaymentSuccess` is idempotent
on the database, because a finalized order has `paymentStatus = "paid"` and the
handler returns without mutating in that case, so the paid transition, the
wallet deduction, and the order-history append happen exactly once, and an
order transitions to `"paid"` at most once. -/
theorem handlePaymentSuccess_idempotent (pi : PIntent) (st : DB) :
    handlePaymentSuccess pi (handlePaymentSuccess pi st) = handlePaymentSuccess pi st := by
  by_cases hpres : strPresent pi.metadata.orderId = false ∨ strPresent pi.metadata.userId = false
  · rw [hps_falsy pi st hpres, hps_falsy pi st hpres]
  · push_neg at hpres
    obtain ⟨h1, h2⟩ := hpres
    simp only [ne_eq, Bool.not_eq_false] at h1 h2
    cases ho : pi.metadata.orderId with
    | none => rw [ho] at h1; simp [strPresent] at h1
    | some oid =>
      cases hu : pi.metadata.userId with
      | none => rw [hu] at h2; simp [strPresent] at h2
      | some uid =>
        have ho' : oid ≠ "" := ne_empty_of_strPresent (ho ▸ h1)
        have hu' : uid ≠ "" := ne_empty_of_strPresent (hu ▸ h2)
        cases hord : alist.lookup st.orders oid with
        | none =>
          have hn : handlePaymentSuccess pi st = st :=
            hps_noOrder pi st (by rw [ho]; simpa using hord)
          rw [hn, hn]
        | some order =>
          cases husr : alist.lookup st.users uid with
          | none =>
            have hn : handlePaymentSuccess pi st = st :=
              hps_noUser pi st (by rw [hu]; simpa using husr)
            rw [hn, hn]
          | some user =>
            by_cases hp : order.paymentStatus = "paid"
            · have hn : handlePaymentSuccess pi st = st :=
                hps_alreadyPaid pi st order (by rw [ho]; simpa using hord) hp
              rw [hn, hn]
            · have ht := hps_transition pi st oid uid order user ho ho' hu hu' hord husr hp
              rw [ht]
              exact hps_alreadyPaid pi _ (hpsFinalOrder pi order)
                (by rw [ho]; simpa [alist.lookup_update_self, hord] using rfl) rfl

/-- C2: When a `payment_intent.succeeded` event carries `walletAmount > 0`
exceeding the user's current balance, `handlePaymentSuccess` leaves the wallet
balance unchanged (it is never driven negative) and still finalizes the order:
`paymentStatus = "paid"`, `orderStatus = "confirmed"`, `verified = true`. -/
theorem handlePaymentSuccess_insufficientBalance (pi : PIntent) (st : DB)
    (oid uid : String) (order : Order) (user : User)
    (ho : pi.metadata.orderId = some oid) (ho' : oid ≠ "")
    (hu : pi.metadata.userId = some uid) (hu' : uid ≠ "")
    (hord : alist.lookup st.orders oid = some order)
    (husr : alist.lookup st.users uid = some user)
    (hnp : order.paymentStatus ≠ "paid")
    (hwa : 0 < pi.metadata.walletAmount.getD 0)
    (hex : user.walletBalance.getD 0 < pi.metadata.walletAmount.getD 0) :
    (∃ u', alist.lookup (handlePaymentSuccess pi st).users uid = some u' ∧
       u'.walletBalance = user.walletBalance) ∧
    (∃ o', alist.lookup (handlePaymentSuccess pi st).orders oid = some o' ∧
       o'.paymentStatus = "paid" ∧ o'.orderStatus = "confirmed" ∧ o'.verified = true) := by
  rw [hps_transition pi st oid uid order user ho ho' hu hu' hord husr hnp]
  have hcond : ¬(pi.metadata.walletAmount.getD 0 > 0 ∧
      user.walletBalance.getD 0 - pi.metadata.walletAmount.getD 0 ≥ 0) := by
    rintro ⟨-, hge⟩
    omega
  constructor
  · refine ⟨hpsFinalUser pi oid user, ?_, ?_⟩
    · simp [alist.lookup_update_self, husr]
    · simp only [hpsFinalUser]
      split
      · exfalso
        omega
      · rfl
  · refine ⟨hpsFinalOrder pi order, ?_, rfl, rfl, rfl⟩
    simp [alist.lookup_update_self, hord]

/-- C2 witness: balance 100, walletAmount 400 — wallet untouched, order paid. -/
theorem handlePaymentSuccess_insufficientBalance_witness :
    (∃ u', alist.lookup (handlePaymentSuccess piSuccess dbMain).users "u1" = some u' ∧
       u'.walletBalance = userLow.walletBalance) ∧
    (∃ o', alist.lookup (handlePaymentSuccess piSuccess dbMain).orders "o1" = some o' ∧
       o'.paymentStatus = "paid" ∧ o'.orderStatus = "confirmed" ∧ o'.verified = true) :=
  handlePaymentSuccess_insufficientBalance piSuccess dbMain "o1" "u1" orderUnpaid userLow
    rfl (by decide) rfl (by decide) (by decide) (by decide) (by decide) (by decide) (by decide)

/-- C3: When webhook signature verification fails, the endpoint responds 400
with the verifier's error message and performs no order or user mutation — the
database comes back unchanged and no event handler runs. -/
theorem stripeWebhookRoute_badSignature (env : StripeEnv) (msg : String) (st : DB) :
    stripeWebhookRoute env (.error msg) st = (.send 400 ("Webhook Error: " ++ msg), st) := rfl

/-- C4: For a signature-verified `payment_intent.succeeded` event whose
metadata lacks `orderId` or `userId`, or whose order or user document is
missing, the webhook applies no state change and still responds
`{received: true}`. -/
theorem stripeWebhookRoute_success_noop (env : StripeEnv) (pi : PIntent) (st : DB)
    (h : strPresent pi.metadata.orderId = false ∨ strPresent pi.metadata.userId = false ∨
         alist.lookup st.orders (pi.metadata.orderId.getD "") = none ∨
         alist.lookup st.users (pi.metadata.userId.getD "") = none) :
    stripeWebhookRoute env (.ok (.paymentIntentSucceeded pi)) st =
      (.json 200 [("received", .jbool true)], st) := by
  unfold stripeWebhookRoute
  dsimp only
  rcases h with h | h | h | h
  · rw [hps_falsy pi st (Or.inl h)]
  · rw [hps_falsy pi st (Or.inr h)]
  · rw [hps_noOrder pi st h]
  · rw [hps_noUser pi st h]

/-- C4 witness: a success event with empty metadata is acknowledged and
mutates nothing. -/
theorem stripeWebhookRoute_success_noop_witness :
    stripeWebhookRoute envSucceeded (.ok (.paymentIntentSucceeded piNoMeta)) dbMain =
      (.json 200 [("received", .jbool true)], dbMain) :=
  stripeWebhookRoute_success_noop envSucceeded piNoMeta dbMain (Or.inl rfl)

/-- C7: `handlePaymentFailure` has no guard on the current payment status: for
any existing order — including one already `"paid"` — a failure event carrying
its `orderId` and a `userId` sets `paymentStatus` to `"failed"` and stores the
failure message. -/
theorem handlePaymentFailure_overwrites (pi : PIntent) (st : DB)
    (oid uid : String) (order : Order)
    (ho : pi.metadata.orderId = some oid) (ho' : oid ≠ "")
    (hu : pi.metadata.userId = some uid) (hu' : uid ≠ "")
    (hord : alist.lookup st.orders oid = some order) :
    alist.lookup (handlePaymentFailure pi st).orders oid =
      some { order with
             paymentStatus := "failed"
             paymentError := some (strOrDefault pi.lastPaymentErrorMessage "Payment failed") } := by
  unfold handlePaymentFailure
  dsimp only
  rw [ho, hu]
  simp only [strPresent, Option.getD_some]
  rw [if_pos]
  · unfold applyOrder
    dsimp only
    rw [alist.adjust_present st.orders oid _ order hord]
    simp [alist.lookup_update_self, hord]
  · simp [isEmpty_false_of_ne ho', isEmpty_false_of_ne hu']

/-- C7 witness: a failure event for an order already `"paid"` overwrites it to
`"failed"` and records the message. -/
theorem handlePaymentFailure_overwrites_witness :
    alist.lookup (handlePaymentFailure piFailPaid dbMain).orders "o2" =
      some { orderPaid with
             paymentStatus := "failed"
             paymentError := some "Your card was declined" } :=
  handlePaymentFailure_overwrites piFailPaid dbMain "o2" "u1" orderPaid
    rfl (by decide) rfl (by decide) (by decide)

/-! ### getOrCreateCustomer lemmas -/

theorem getOrCreateCustomer_orders (env : StripeEnv) (uid : String)
    (email : Option String) (st : DB) :
    (getOrCreateCustomer env uid email st).2.1.orders = st.orders := by
  unfold getOrCreateCustomer
  cases alist.lookup st.users uid with
  | none => rfl
  | some u =>
    dsimp only
    split <;> rfl

theorem getOrCreateCustomer_calls (env : StripeEnv) (uid : String)
    (email : Option String) (st : DB) :
    ∀ c ∈ (getOrCreateCustomer env uid email st).2.2, c.isIntentCreate = false := by
  unfold getOrCreateCustomer
  cases alist.lookup st.users uid with
  | none =>
    intro c hc
    simp only [List.mem_singleton] at hc
    subst hc
    rfl
  | some u =>
    dsimp only
    split
    · intro c hc
      simp at hc
    · intro c hc
      simp only [List.mem_singleton] at hc
      subst hc
      rfl

theorem getOrCreateCustomer_lookup (env : StripeEnv) (uid : String)
    (email : Option String) (st : DB) (user : User)
    (h : alist.lookup st.users uid = some user) :
    alist.lookup (getOrCreateCustomer env uid email st).2.1.users uid =
      some (if strPresent user.stripeCustomerId = true then user
            else { user with stripeCustomerId := some env.newCustomerId }) := by
  unfold getOrCreateCustomer
  rw [h]
  dsimp only
  by_cases hc : strPresent user.stripeCustomerId = true
  · rw [if_pos hc, if_pos hc]
    simpa using h
  · rw [if_neg hc, if_neg hc]
    simp [alist.lookup_update_self, h]

/-- C9: `createPaymentIntent` validation: a missing, zero, or negative amount
yields 400 "Invalid amount" with no external call and no database write; with a
valid amount, a missing `orderId` or `userId` yields 400
"Missing required fields", likewise before any external call. -/
theorem createPaymentIntent_validation (env : StripeEnv) (req : CreatePIRequest) (st : DB) :
    (invalidAmount req.amount = true →
      createPaymentIntentRoute env req st =
        (.json 400 [("error", .jstr "Invalid amount")], st, [])) ∧
    (invalidAmount req.amount = false →
      (strPresent req.orderId = false ∨ strPresent req.userId = false) →
      createPaymentIntentRoute env req st =
        (.json 400 [("error", .jstr "Missing required fields")], st, [])) := by
  constructor
  · intro h
    unfold createPaymentIntentRoute
    simp [h]
  · intro h hm
    unfold createPaymentIntentRoute
    rcases hm with hm | hm <;> simp [h, hm]

def reqNoAmount : CreatePIRequest :=
  { amount := none, orderId := some "o1", userId := some "u1", paymentMethodId := none,
    walletAmount := none, currency := none }

def reqNoUser : CreatePIRequest :=
  { amount := some 1000, orderId := some "o1", userId := none, paymentMethodId := none,
    walletAmount := none, currency := none }

/-- C9 witness: a request without an amount is rejected with "Invalid amount";
one with a valid amount but no `userId` is rejected with
"Missing required fields"; both touch nothing. -/
theorem createPaymentIntent_validation_witness :
    createPaymentIntentRoute envSucceeded reqNoAmount dbMain =
        (.json 400 [("error", .jstr "Invalid amount")], dbMain, []) ∧
    createPaymentIntentRoute envSucceeded reqNoUser dbMain =
        (.json 400 [("error", .jstr "Missing required fields")], dbMain, []) :=
  ⟨(createPaymentIntent_validation envSucceeded reqNoAmount dbMain).1 (by decide),
   (createPaymentIntent_validation envSucceeded reqNoUser dbMain).2 (by decide)
     (Or.inr (by decide))⟩

def reqWalletOnly : CreatePIRequest :=
  { amount := some 1000, orderId := some "o1", userId := some "u1",
    paymentMethodId := none, walletAmount := some 1000, currency := none }

/-- C6 counterexample: on a wallet-only request (`walletAmount = amount`), the
response object has a `walletOnly` field but carries neither a `status` nor a
`requiresConfirmation` field, so it does not carry all the declared fields
`{clientSecret, paymentIntentId, walletOnly, status, requiresConfirmation}`. -/
theorem createPaymentIntent_walletOnly_missing_fields :
    Response.hasField (createPaymentIntentRoute envSucceeded reqWalletOnly dbMain).1 "walletOnly"
        = true ∧
    Response.hasField (createPaymentIntentRoute envSucceeded reqWalletOnly dbMain).1 "status"
        = false ∧
    Response.hasField (createPaymentIntentRoute envSucceeded reqWalletOnly dbMain).1
        "requiresConfirmation" = false := by decide

/-- C6 (amended): with `walletAmount = amount` (so `stripeAmount ≤ 0`), the
route issues no external payment-intent request and responds
`{clientSecret: null, paymentIntentId: null, walletOnly: true}` — without
`status` or `requiresConfirmation` fields. -/
theorem createPaymentIntent_walletOnly (env : StripeEnv) (req : CreatePIRequest)
    (st : DB) (oid uid : String) (user : User) (a : Int)
    (ha : req.amount = some a) (ha' : 0 < a)
    (ho : req.orderId = some oid) (ho' : oid ≠ "")
    (hu : req.userId = some uid) (hu' : uid ≠ "")
    (husr : alist.lookup st.users uid = some user)
    (hw : req.walletAmount = some a) :
    (createPaymentIntentRoute env req st).1 =
      .json 200 [("clientSecret", .jnull), ("paymentIntentId", .jnull),
                 ("walletOnly", .jbool true)] ∧
    ∀ c ∈ (createPaymentIntentRoute env req st).2.2, c.isIntentCreate = false := by
  have hA : invalidAmount req.amount = false := by
    rw [ha]
    simp only [invalidAmount, decide_eq_false_iff_not]
    omega
  have hroute : createPaymentIntentRoute env req st =
      (.json 200 [("clientSecret", .jnull), ("paymentIntentId", .jnull),
                  ("walletOnly", .jbool true)],
       (getOrCreateCustomer env uid user.email st).2.1,
       (getOrCreateCustomer env uid user.email st).2.2) := by
    unfold createPaymentIntentRoute
    rw [ho, hu]
    simp only [hA, Bool.false_eq_true, if_false, strPresent,
      isEmpty_false_of_ne ho', isEmpty_false_of_ne hu', Bool.not_true,
      Bool.not_false, Bool.false_or, Bool.or_self, Option.getD_some]
    rw [husr]
    dsimp only
    rw [ha, hw]
    simp only [Option.getD_some]
    rw [if_pos (by omega : a - a ≤ 0)]
  rw [hroute]
  exact ⟨rfl, getOrCreateCustomer_calls env uid user.email st⟩

/-- C6 witness: amount 1000 fully covered by walletAmount 1000. -/
theorem createPaymentIntent_walletOnly_witness :
    (createPaymentIntentRoute envSucceeded reqWalletOnly dbMain).1 =
      .json 200 [("clientSecret", .jnull), ("paymentIntentId", .jnull),
                 ("walletOnly", .jbool true)] ∧
    ∀ c ∈ (createPaymentIntentRoute envSucceeded reqWalletOnly dbMain).2.2,
      c.isIntentCreate = false :=
  createPaymentIntent_walletOnly envSucceeded reqWalletOnly dbMain "o1" "u1" userLow 1000
    rfl (by decide) rfl (by decide) rfl (by decide) (by decide) rfl

/-! ### add-money-to-wallet route reductions -/

theorem addMoney_state_notSucceeded (env : StripeEnv) (req : AddMoneyRequest)
    (st : DB) (uid : String) (user : User) (a : Int)
    (ha : req.amount = some a) (ha' : 0 < a)
    (hu : req.userId = some uid) (hu' : uid ≠ "")
    (husr : alist.lookup st.users uid = some user)
    (hs : env.createdPI.status ≠ "succeeded") :
    (addMoneyToWalletRoute env req st).2 =
      (getOrCreateCustomer env uid user.email st).2.1 := by
  have hA : invalidAmount req.amount = false := by
    rw [ha]
    simp only [invalidAmount, decide_eq_false_iff_not]
    omega
  unfold addMoneyToWalletRoute
  rw [hu]
  simp only [hA, Bool.false_eq_true, if_false, strPresent, isEmpty_false_of_ne hu',
    Bool.not_false, Bool.not_true, Option.getD_some]
  rw [husr]
  dsimp only
  by_cases hreq : (decide (env.createdPI.status = "requires_action")
      || decide (env.createdPI.status = "requires_payment_method")) = true
  · rw [if_pos hreq]
  · rw [if_neg hreq, if_neg hs]

theorem addMoney_succeeded_eq (env : StripeEnv) (req : AddMoneyRequest)
    (st : DB) (uid : String) (user : User) (a : Int)
    (ha : req.amount = some a) (ha' : 0 < a)
    (hu : req.userId = some uid) (hu' : uid ≠ "")
    (husr : alist.lookup st.users uid = some user)
    (hs : env.createdPI.status = "succeeded") :
    addMoneyToWalletRoute env req st =
      (.json 200 [("success", .jbool true),
                  ("paymentIntentId", .jstr env.createdPI.id),
                  ("status", .jstr env.createdPI.status),
                  ("requiresConfirmation", .jbool false),
                  ("amountAdded", .jnum a),
                  ("newBalance", .jnum (user.walletBalance.getD 0 + a))],
       if req.saveCard && !strPresent req.paymentMethodId
           && strPresent env.createdPI.paymentMethod then
         applyUser
           (applyUser (getOrCreateCustomer env uid user.email st).2.1 uid (fun u =>
             { u with
               walletBalance := some (user.walletBalance.getD 0 + a)
               walletTransactions := arrayUnion u.walletTransactions
                 { txType := "deposit", amount := a
                   previousBalance := user.walletBalance.getD 0
                   newBalance := user.walletBalance.getD 0 + a
                   txStatus := "completed", description := "Wallet top-up via card"
                   stripePaymentIntentId := env.createdPI.id
                   stripeChargeId := env.createdPI.latestCharge
                   paymentMethod :=
                     if strPresent req.paymentMethodId then "saved_card" else "new_card"
                   saveCard := req.saveCard } }))
           uid (fun u =>
             { u with
               savedCards := arrayUnion u.savedCards
                 { id := env.createdPI.paymentMethod.getD ""
                   brand := (env.retrievedPM (env.createdPI.paymentMethod.getD "")).brand
                   last4 := (env.retrievedPM (env.createdPI.paymentMethod.getD "")).last4
                   expMonth := (env.retrievedPM (env.createdPI.paymentMethod.getD "")).expMonth
                   expYear := (env.retrievedPM (env.createdPI.paymentMethod.getD "")).expYear } })
       else
         applyUser (getOrCreateCustomer env uid user.email st).2.1 uid (fun u =>
           { u with
             walletBalance := some (user.walletBalance.getD 0 + a)
             walletTransactions := arrayUnion u.walletTransactions
               { txType := "deposit", amount := a
                 previousBalance := user.walletBalance.getD 0
                 newBalance := user.walletBalance.getD 0 + a
                 txStatus := "completed", description := "Wallet top-up via card"
                 stripePaymentIntentId := env.createdPI.id
                 stripeChargeId := env.createdPI.latestCharge
                 paymentMethod :=
                   if strPresent req.paymentMethodId then "saved_card" else "new_card"
                 saveCard := req.saveCard } })) := by
  have hA : invalidAmount req.amount = false := by
    rw [ha]
    simp only [invalidAmount, decide_eq_false_iff_not]
    omega
  unfold addMoneyToWalletRoute
  rw [hu]
  simp only [hA, Bool.false_eq_true, if_false, strPresent, isEmpty_false_of_ne hu',
    Bool.not_false, Bool.not_true, Option.getD_some]
  rw [husr]
  dsimp only
  rw [if_neg (by rw [hs]; decide), if_pos hs, ha]
  simp only [Option.getD_some]

theorem addMoney_other_eq (env : StripeEnv) (req : AddMoneyRequest)
    (st : DB) (uid : String) (user : User) (a : Int)
    (ha : req.amount = some a) (ha' : 0 < a)
    (hu : req.userId = some uid) (hu' : uid ≠ "")
    (husr : alist.lookup st.users uid = some user)
    (h1 : env.createdPI.status ≠ "succeeded")
    (h2 : env.createdPI.status ≠ "requires_action")
    (h3 : env.createdPI.status ≠ "requires_payment_method") :
    addMoneyToWalletRoute env req st =
      (.json 200 [("success", .jbool true),
                  ("paymentIntentId", .jstr env.createdPI.id),
                  ("status", .jstr env.createdPI.status),
                  ("requiresConfirmation", .jbool false),
                  ("amountAdded", .jnum a),
                  ("newBalance", .jnum (user.walletBalance.getD 0 + a))],
       (getOrCreateCustomer env uid user.email st).2.1) := by
  have hA : invalidAmount req.amount = false := by
    rw [ha]
    simp only [invalidAmount, decide_eq_false_iff_not]
    omega
  unfold addMoneyToWalletRoute
  rw [hu]
  simp only [hA, Bool.false_eq_true, if_false, strPresent, isEmpty_false_of_ne hu',
    Bool.not_false, Bool.not_true, Option.getD_some]
  rw [husr]
  dsimp only
  rw [if_neg (by simp [Bool.or_eq_true, decide_eq_true_eq, h2, h3]), if_neg h1, ha]
  simp only [Option.getD_some]

/-- C5: When the wallet top-up payment intent has status `"succeeded"`, the
wallet is credited so that the new balance is `previousBalance + amount` and a
transaction record with matching `amount`, `previousBalance`, and `newBalance`
is appended; when the status is anything other than `"succeeded"`, neither the
balance nor the transaction list changes. -/
theorem addMoney_succeeded_credits (env : StripeEnv) (req : AddMoneyRequest)
    (st : DB) (uid : String) (user : User) (a : Int)
    (ha : req.amount = some a) (ha' : 0 < a)
    (hu : req.userId = some uid) (hu' : uid ≠ "")
    (husr : alist.lookup st.users uid = some user)
    (hs : env.createdPI.status = "succeeded") :
    (∃ u', alist.lookup (addMoneyToWalletRoute env req st).2.users uid = some u' ∧
       u'.walletBalance = some (user.walletBalance.getD 0 + a) ∧
       ∃ tx : WalletTx, u'.walletTransactions = arrayUnion user.walletTransactions tx ∧
         tx.amount = a ∧ tx.previousBalance = user.walletBalance.getD 0 ∧
         tx.newBalance = user.walletBalance.getD 0 + a) ∧
    (∀ env2 : StripeEnv, env2.createdPI.status ≠ "succeeded" →
      ∃ u2, alist.lookup (addMoneyToWalletRoute env2 req st).2.users uid = some u2 ∧
        u2.walletBalance = user.walletBalance ∧
        u2.walletTransactions = user.walletTransactions) := by
  constructor
  · rw [addMoney_succeeded_eq env req st uid user a ha ha' hu hu' husr hs]
    have hst1 := getOrCreateCustomer_lookup env uid user.email st user husr
    dsimp only
    by_cases hcs : (req.saveCard && !strPresent req.paymentMethodId
        && strPresent env.createdPI.paymentMethod) = true
    · rw [if_pos hcs]
      simp only [applyUser, alist.lookup_adjust_self, hst1, Option.map_some']
      exact ⟨_, rfl, rfl, _, by split <;> rfl, rfl, rfl, rfl⟩
    · rw [if_neg hcs]
      simp only [applyUser, alist.lookup_adjust_self, hst1, Option.map_some']
      exact ⟨_, rfl, rfl, _, by split <;> rfl, rfl, rfl, rfl⟩
  · intro env2 hs2
    rw [addMoney_state_notSucceeded env2 req st uid user a ha ha' hu hu' husr hs2]
    exact ⟨_, getOrCreateCustomer_lookup env2 uid user.email st user husr,
      by split <;> rfl, by split <;> rfl⟩

def reqTopUp : AddMoneyRequest :=
  { amount := some 500, userId := some "u1", paymentMethodId := none,
    saveCard := false, currency := none }

/-- C5 witness: a succeeded top-up of 500 onto balance 100 credits to 600 and
appends a matching deposit record. -/
theorem addMoney_succeeded_credits_witness :
    ∃ u', alist.lookup (addMoneyToWalletRoute envSucceeded reqTopUp dbMain).2.users "u1"
        = some u' ∧
      u'.walletBalance = some (userLow.walletBalance.getD 0 + 500) ∧
      ∃ tx : WalletTx, u'.walletTransactions = arrayUnion userLow.walletTransactions tx ∧
        tx.amount = 500 ∧ tx.previousBalance = userLow.walletBalance.getD 0 ∧
        tx.newBalance = userLow.walletBalance.getD 0 + 500 :=
  (addMoney_succeeded_credits envSucceeded reqTopUp dbMain "u1" userLow 500
    rfl (by decide) rfl (by decide) (by decide) rfl).1

/-- C8: When the wallet top-up payment intent lands in a status other than
`"succeeded"`, `"requires_action"`, and `"requires_payment_method"` (for
example `"processing"`), the wallet balance and transaction list are left
unchanged, yet the response reports `success: true`,
`requiresConfirmation: false`, and a `newBalance` of `previousBalance + amount`
that was never written. -/
theorem addMoney_unhandledStatus (env : StripeEnv) (req : AddMoneyRequest)
    (st : DB) (uid : String) (user : User) (a : Int)
    (ha : req.amount = some a) (ha' : 0 < a)
    (hu : req.userId = some uid) (hu' : uid ≠ "")
    (husr : alist.lookup st.users uid = some user)
    (h1 : env.createdPI.status ≠ "succeeded")
    (h2 : env.createdPI.status ≠ "requires_action")
    (h3 : env.createdPI.status ≠ "requires_payment_method") :
    (∃ u', alist.lookup (addMoneyToWalletRoute env req st).2.users uid = some u' ∧
       u'.walletBalance = user.walletBalance ∧
       u'.walletTransactions = user.walletTransactions) ∧
    (addMoneyToWalletRoute env req st).1 =
      .json 200 [("success", .jbool true),
                 ("paymentIntentId", .jstr env.createdPI.id),
                 ("status", .jstr env.createdPI.status),
                 ("requiresConfirmation", .jbool false),
                 ("amountAdded", .jnum a),
                 ("newBalance", .jnum (user.walletBalance.getD 0 + a))] := by
  rw [addMoney_other_eq env req st uid user a ha ha' hu hu' husr h1 h2 h3]
  exact ⟨⟨_, getOrCreateCustomer_lookup env uid user.email st user husr,
    by split <;> rfl, by split <;> rfl⟩, rfl⟩

/-- C8 witness: a `"processing"` top-up of 500 leaves balance 100 untouched
but answers success with newBalance 600. -/
theorem addMoney_unhandledStatus_witness :
    (∃ u', alist.lookup (addMoneyToWalletRoute envProcessing reqTopUp dbMain).2.users "u1"
        = some u' ∧
       u'.walletBalance = userLow.walletBalance ∧
       u'.walletTransactions = userLow.walletTransactions) ∧
    (addMoneyToWalletRoute envProcessing reqTopUp dbMain).1 =
      .json 200 [("success", .jbool true),
                 ("paymentIntentId", .jstr envProcessing.createdPI.id),
                 ("status", .jstr envProcessing.createdPI.status),
                 ("requiresConfirmation", .jbool false),
                 ("amountAdded", .jnum 500),
                 ("newBalance", .jnum (userLow.walletBalance.getD 0 + 500))] :=
  addMoney_unhandledStatus envProcessing reqTopUp dbMain "u1" userLow 500
    rfl (by decide) rfl (by decide) (by decide) (by decide) (by decide) (by decide)

/-- C10: `removeCard` on an existing user: removing the identity stored as the
default clears the default to null while keeping every other card; removing an
identity absent from the saved-card list that is not the default leaves both
the list and the default unchanged. -/
theorem removeCard_default_or_absent (pmId uid : String) (st : DB) (user : User)
    (hpm : pmId ≠ "") (huid : uid ≠ "")
    (husr : alist.lookup st.users uid = some user) :
    (user.defaultPaymentMethod = some pmId →
      ∃ u', alist.lookup (removeCardRoute (some pmId) (some uid) st).2.1.users uid
          = some u' ∧
        u'.defaultPaymentMethod = none ∧
        u'.savedCards = user.savedCards.filter (fun card => card.id != pmId) ∧
        ∀ c ∈ user.savedCards, c.id ≠ pmId → c ∈ u'.savedCards) ∧
    ((∀ c ∈ user.savedCards, c.id ≠ pmId) → user.defaultPaymentMethod ≠ some pmId →
      ∃ u', alist.lookup (removeCardRoute (some pmId) (some uid) st).2.1.users uid
          = some u' ∧
        u'.savedCards = user.savedCards ∧
        u'.defaultPaymentMethod = user.defaultPaymentMethod) := by
  have hroute : (removeCardRoute (some pmId) (some uid) st).2.1 =
      applyUser st uid (fun u =>
        { u with
          savedCards := user.savedCards.filter (fun card => card.id != pmId)
          defaultPaymentMethod :=
            if user.defaultPaymentMethod = some pmId then none
            else user.defaultPaymentMethod }) := by
    unfold removeCardRoute
    simp only [strPresent, isEmpty_false_of_ne hpm, isEmpty_false_of_ne huid,
      Bool.not_false, Bool.not_true, Bool.or_self, Bool.false_eq_true, if_false,
      Option.getD_some]
    rw [husr]
  rw [hroute]
  simp only [applyUser, alist.lookup_adjust_self, husr, Option.map_some']
  constructor
  · intro hd
    refine ⟨_, rfl, ?_, rfl, ?_⟩
    · simp [hd]
    · intro c hc hne
      exact List.mem_filter.mpr ⟨hc, bne_iff_ne.mpr hne⟩
  · intro habs hnd
    refine ⟨_, rfl, ?_, ?_⟩
    · exact List.filter_eq_self.mpr (fun c hc => bne_iff_ne.mpr (habs c hc))
    · simp [hnd]

/-- C10 witness: removing `pm_1`, the stored default of a user holding cards
`pm_1` and `pm_2`, clears the default and keeps `pm_2`. -/
theorem removeCard_default_or_absent_witness :
    ∃ u', alist.lookup (removeCardRoute (some "pm_1") (some "u2") dbMain).2.1.users "u2"
        = some u' ∧
      u'.defaultPaymentMethod = none ∧
      u'.savedCards = userWithCards.savedCards.filter (fun card => card.id != "pm_1") ∧
      ∀ c ∈ userWithCards.savedCards, c.id ≠ "pm_1" → c ∈ u'.savedCards :=
  (removeCard_default_or_absent "pm_1" "u2" dbMain userWithCards
    (by decide) (by decide) (by decide)).1 rfl
